import Mathlib

set_option maxHeartbeats 1000000

/-!
Shallow embedding of the Voxel Seattle Center diorama sources (src/train.js,
src/constants.js and the unnamed scene module), together with theorems about
the train state machine, the voxel shell extraction, the loop followers, the
helicopter parked mode, the elevators and the symmetry helpers.

JavaScript numbers are modelled as exact rationals; the non-finite value NaN
is modelled explicitly where the code tests for it or can receive it.
-/

/-- A JavaScript number as seen by the code under study: either a finite value
(modelled exactly as a rational) or the non-finite value NaN.  Note that the
JS test `typeof v === 'number'` is true for both constructors. -/
inductive JsNum where
  | num (q : ℚ)
  | nan
  deriving DecidableEq, Repr

/-- JavaScript addition on numbers: any NaN operand makes the result NaN. -/
def JsNum.add : JsNum → JsNum → JsNum
  | JsNum.num a, JsNum.num b => JsNum.num (a + b)
  | _, _ => JsNum.nan

/-- A three-component vector of JS numbers (a THREE.Vector3 whose components
may be NaN). -/
structure V3 where
  x : JsNum
  y : JsNum
  z : JsNum
  deriving DecidableEq, Repr

/-- The result of `curve.getPointAt` / `curve.getTangentAt` as discriminated by
the JS truthiness and typeof checks in src/train.js: absent (undefined/null),
an object whose `x` field is not a number, or a vector of three JS numbers
(whose components may be NaN — `typeof NaN === 'number'` holds). -/
inductive CurveSample where
  | undef
  | objNonNum
  | vec (x y z : JsNum)

/-- One car slot of the train (src/train.js constructor): a fixed curve offset,
the car's role string, and its current transform (position and the look-at
target that determines its orientation). -/
structure CarState where
  offset : ℚ
  carType : String
  pos : V3
  lookTarget : V3
  deriving DecidableEq, Repr

/-- The train state machine's mode: the code stores the strings
'MOVING' / 'STOPPED'. -/
inductive TrainMode where
  | moving
  | stopped
  deriving DecidableEq, Repr

/-- State of a Train (src/train.js), including the curve it samples, modelled
as the pair of sampling functions together with a flag for the truthiness
guard `!this.curve || !this.curve.getPointAt`. -/
structure TrainState where
  progress : ℚ
  speed : ℚ
  direction : ℚ
  mode : TrainMode
  stopTimer : ℚ
  cars : List CarState
  getPointAt : ℚ → CurveSample
  getTangentAt : ℚ → CurveSample
  hasCurve : Bool

/-- TRAIN_LENGTH_RATIO from src/constants.js (0.01). -/
def trainLengthRatio : ℚ := 1/100

/-- CAR_GAP from src/constants.js (0.0005). -/
def carGap : ℚ := 1/2000

/-- this.TRAIN_SPAN from the Train constructor: `3 * (TRAIN_LENGTH_RATIO + CAR_GAP)`. -/
def trainSpan : ℚ := 3 * (trainLengthRatio + carGap)

/-- this.TRACK_BUFFER from the Train constructor (0.01). -/
def trackBuffer : ℚ := 1/100

/-- this.STOP_DURATION from the Train constructor (5 seconds). -/
def stopDuration : ℚ := 5

/-- The lower bound `minProgress = TRAIN_SPAN + TRACK_BUFFER` used both by the
constructor clamp and by Train.update. -/
def minProgress : ℚ := trainSpan + trackBuffer

/-- The upper bound `maxProgress = 1.0 - TRACK_BUFFER` used both by the
constructor clamp and by Train.update. -/
def maxProgress : ℚ := 1 - trackBuffer

/-- The constructor's initial progress clamp (src/train.js lines 22-23):
`Math.max(TRAIN_SPAN + TRACK_BUFFER, Math.min(1.0 - TRACK_BUFFER, progress))`. -/
def trainInitProgress (p0 : ℚ) : ℚ :=
  max (trainSpan + trackBuffer) (min (1 - trackBuffer) p0)

/-- The per-car body of Train.updateCarPositions (src/train.js lines 111-135):
compute `t = progress - offset`, clamp to `[0.0001, 0.9999]`, sample point and
tangent, and copy them onto the car's transform only when both samples pass the
`typeof sample.x === 'number'` object checks.  The code's `if (isNaN(t)) return`
is vacuous here because progress and offset are finite rationals. -/
def clampT (t : ℚ) : ℚ := max (1/10000) (min (9999/10000) t)

def carStep (progress : ℚ) (getP getT : ℚ → CurveSample) (car : CarState) : CarState :=
  let t := progress - car.offset
  let clampedT := clampT t
  match getP clampedT, getT clampedT with
  | CurveSample.vec px py pz, CurveSample.vec tx ty tz =>
      { car with pos := ⟨px, py, pz⟩,
                 lookTarget := ⟨JsNum.add px tx, JsNum.add py ty, JsNum.add pz tz⟩ }
  | _, _ => car

/-- Train.updateCarPositions (src/train.js lines 108-136): early return when the
curve or its getPointAt is missing, otherwise update every car slot. -/
def updateCarPositions (s : TrainState) : TrainState :=
  if s.hasCurve then
    { s with cars := s.cars.map (carStep s.progress s.getPointAt s.getTangentAt) }
  else s

/-- Train.update (src/train.js lines 67-106): NaN delta returns immediately;
in STOPPED mode the dwell timer counts down and the train stays stationary;
in MOVING mode progress advances by `direction * speed * delta * 0.1` and is
clamped at the two station limits, flipping direction and arming the dwell
timer, then car transforms are refreshed. -/
def trainUpdate (s : TrainState) (delta : JsNum) : TrainState :=
  match delta with
  | JsNum.nan => s
  | JsNum.num d =>
    match s.mode with
    | TrainMode.stopped =>
        let t := s.stopTimer - d
        if t ≤ 0 then { s with stopTimer := t, mode := TrainMode.moving }
        else { s with stopTimer := t }
    | TrainMode.moving =>
        let p := s.progress + s.direction * s.speed * d * (1/10)
        let s1 :=
          if p ≥ maxProgress then
            { s with progress := maxProgress, direction := -1,
                     mode := TrainMode.stopped, stopTimer := stopDuration }
          else if p ≤ minProgress then
            { s with progress := minProgress, direction := 1,
                     mode := TrainMode.stopped, stopTimer := stopDuration }
          else { s with progress := p }
        updateCarPositions s1

theorem updateCarPositions_progress (s : TrainState) :
    (updateCarPositions s).progress = s.progress := by
  unfold updateCarPositions; split <;> rfl

theorem updateCarPositions_direction (s : TrainState) :
    (updateCarPositions s).direction = s.direction := by
  unfold updateCarPositions; split <;> rfl

theorem updateCarPositions_mode (s : TrainState) :
    (updateCarPositions s).mode = s.mode := by
  unfold updateCarPositions; split <;> rfl

/-- C1: for every Train whose progress is produced by the constructor clamp or
by update (starting from an in-range progress), every car slot i ∈ 0..3 with
offset `i * (TRAIN_LENGTH_RATIO + CAR_GAP)` has its effective curve parameter
`progress - offset` inside `[TRACK_BUFFER, 1 - TRACK_BUFFER]`: the constructor
clamp lands in `[minProgress, maxProgress]`, update preserves that interval for
every delta (NaN included), and any progress in the interval puts all four
slot parameters inside the open curve's safe domain. -/
theorem train_span_safety :
    (∀ p0 : ℚ, minProgress ≤ trainInitProgress p0 ∧ trainInitProgress p0 ≤ maxProgress) ∧
    (∀ (s : TrainState) (delta : JsNum),
        minProgress ≤ s.progress → s.progress ≤ maxProgress →
        minProgress ≤ (trainUpdate s delta).progress ∧
          (trainUpdate s delta).progress ≤ maxProgress) ∧
    (∀ p : ℚ, minProgress ≤ p → p ≤ maxProgress → ∀ i : ℕ, i ≤ 3 →
        trackBuffer ≤ p - i * (trainLengthRatio + carGap) ∧
          p - i * (trainLengthRatio + carGap) ≤ 1 - trackBuffer) := by
  refine ⟨?_, ?_, ?_⟩
  · intro p0
    constructor
    · exact le_max_left _ _
    · apply max_le
      · norm_num [trainSpan, trainLengthRatio, carGap, trackBuffer, maxProgress]
      · exact min_le_left _ _
  · intro s delta h1 h2
    cases delta with
    | nan => exact ⟨h1, h2⟩
    | num d =>
      cases hm : s.mode with
      | stopped =>
        simp only [trainUpdate, hm]
        split <;> exact ⟨h1, h2⟩
      | moving =>
        simp only [trainUpdate, hm]
        rw [updateCarPositions_progress]
        split
        · simp only
          constructor
          · norm_num [minProgress, maxProgress, trainSpan, trainLengthRatio, carGap, trackBuffer]
          · norm_num
        · split
          · simp only
            constructor
            · norm_num
            · norm_num [minProgress, maxProgress, trainSpan, trainLengthRatio, carGap, trackBuffer]
          · rename_i hge hle
            push_neg at hge hle
            exact ⟨le_of_lt hle, le_of_lt hge⟩
  · intro p hp1 hp2 i hi
    have hi3 : (i : ℚ) ≤ 3 := by exact_mod_cast hi
    have hi0 : (0 : ℚ) ≤ (i : ℚ) := Nat.cast_nonneg i
    simp only [minProgress, maxProgress, trainSpan, trainLengthRatio, carGap,
      trackBuffer] at hp1 hp2 ⊢
    constructor <;> nlinarith [hi3, hi0]

/-- A concrete in-range train state used to instantiate `train_span_safety`. -/
def c1WitnessState : TrainState :=
  { progress := 1/2, speed := 7/20, direction := 1, mode := TrainMode.moving,
    stopTimer := 0, cars := [],
    getPointAt := fun _ => CurveSample.undef,
    getTangentAt := fun _ => CurveSample.undef, hasCurve := false }

/-- Witness for C1 at the concrete state `c1WitnessState` with delta = 1 and
slot index 3. -/
theorem train_span_safety_witness :
    minProgress ≤ (trainUpdate c1WitnessState (JsNum.num 1)).progress ∧
    (trainUpdate c1WitnessState (JsNum.num 1)).progress ≤ maxProgress ∧
    trackBuffer ≤ (1/2 : ℚ) - (3 : ℕ) * (trainLengthRatio + carGap) ∧
    (1/2 : ℚ) - (3 : ℕ) * (trainLengthRatio + carGap) ≤ 1 - trackBuffer := by
  have h := train_span_safety
  have hlo : minProgress ≤ c1WitnessState.progress := by
    norm_num [c1WitnessState, minProgress, trainSpan, trainLengthRatio, carGap, trackBuffer]
  have hhi : c1WitnessState.progress ≤ maxProgress := by
    norm_num [c1WitnessState, maxProgress, trackBuffer]
  have h2 := h.2.1 c1WitnessState (JsNum.num 1) hlo hhi
  have h3 := h.2.2 (1/2) hlo hhi 3 (by norm_num)
  exact ⟨h2.1, h2.2, h3.1, h3.2⟩

/-- C10: calling Train.update with delta = NaN returns immediately and leaves
the whole train state unchanged: progress, direction, mode, stop timer and
every car transform are exactly as before the call. -/
theorem trainUpdate_nan_unchanged (s : TrainState) :
    (trainUpdate s JsNum.nan).progress = s.progress ∧
    (trainUpdate s JsNum.nan).direction = s.direction ∧
    (trainUpdate s JsNum.nan).mode = s.mode ∧
    (trainUpdate s JsNum.nan).stopTimer = s.stopTimer ∧
    (trainUpdate s JsNum.nan).cars = s.cars ∧
    trainUpdate s JsNum.nan = s :=
  ⟨rfl, rfl, rfl, rfl, rfl, rfl⟩

/-- Step characterization of Train.update in MOVING mode when neither station
limit is hit (and no curve is attached, so car transforms are untouched). -/
theorem trainUpdate_moving_mid (s : TrainState) (d : ℚ)
    (hm : s.mode = TrainMode.moving) (hc : s.hasCurve = false)
    (h1 : s.progress + s.direction * s.speed * d * (1/10) < maxProgress)
    (h2 : minProgress < s.progress + s.direction * s.speed * d * (1/10)) :
    trainUpdate s (JsNum.num d) =
      { s with progress := s.progress + s.direction * s.speed * d * (1/10) } := by
  simp only [trainUpdate, hm]
  rw [if_neg (by exact not_le.mpr h1), if_neg (by exact not_le.mpr h2)]
  simp [updateCarPositions, hc]

/-- Step characterization of Train.update in MOVING mode when the upper station
limit is reached. -/
theorem trainUpdate_moving_top (s : TrainState) (d : ℚ)
    (hm : s.mode = TrainMode.moving) (hc : s.hasCurve = false)
    (h1 : s.progress + s.direction * s.speed * d * (1/10) ≥ maxProgress) :
    trainUpdate s (JsNum.num d) =
      { s with progress := maxProgress, direction := -1,
               mode := TrainMode.stopped, stopTimer := stopDuration } := by
  simp only [trainUpdate, hm]
  rw [if_pos h1]
  simp [updateCarPositions, hc]

/-- Step characterization of Train.update in STOPPED mode while the dwell timer
is still positive after the tick. -/
theorem trainUpdate_stopped_tick (s : TrainState) (d : ℚ)
    (hm : s.mode = TrainMode.stopped) (h : ¬ s.stopTimer - d ≤ 0) :
    trainUpdate s (JsNum.num d) = { s with stopTimer := s.stopTimer - d } := by
  simp only [trainUpdate, hm]
  rw [if_neg h]

/-- Step characterization of Train.update in STOPPED mode on the tick where the
dwell timer elapses: the train re-enters MOVING with its direction untouched. -/
theorem trainUpdate_stopped_release (s : TrainState) (d : ℚ)
    (hm : s.mode = TrainMode.stopped) (h : s.stopTimer - d ≤ 0) :
    trainUpdate s (JsNum.num d) =
      { s with stopTimer := s.stopTimer - d, mode := TrainMode.moving } := by
  simp only [trainUpdate, hm]
  rw [if_pos h]

/-- The car list built by the Train constructor for the C6 scenario:
slots HEAD, BODY, BODY, TAIL with offsets i * (TRAIN_LENGTH_RATIO + CAR_GAP). -/
def c6Car (i : ℕ) : CarState :=
  { offset := i * (trainLengthRatio + carGap),
    carType := if i = 0 then "HEAD" else if i = 3 then "TAIL" else "BODY",
    pos := ⟨JsNum.num 0, JsNum.num 0, JsNum.num 0⟩,
    lookTarget := ⟨JsNum.num 0, JsNum.num 0, JsNum.num 1⟩ }

/-- The C6 scenario's initial Train state: config speed 0.35, direction 1,
initialProgress 0.05 run through the constructor clamp. -/
def c6Init : TrainState :=
  { progress := trainInitProgress (1/20), speed := 7/20, direction := 1,
    mode := TrainMode.moving, stopTimer := 0,
    cars := [c6Car 0, c6Car 1, c6Car 2, c6Car 3],
    getPointAt := fun _ => CurveSample.undef,
    getTangentAt := fun _ => CurveSample.undef, hasCurve := false }

/-- The C6 simulation: n Train.update steps with delta = 2 seconds each. -/
def c6Run : ℕ → TrainState
  | 0 => c6Init
  | n + 1 => trainUpdate (c6Run n) (JsNum.num 2)

theorem c6Init_progress : c6Init.progress = 1/20 := by
  show trainInitProgress (1/20) = 1/20
  unfold trainInitProgress
  rw [min_eq_right (by norm_num [trackBuffer]),
    max_eq_right (by norm_num [trainSpan, trainLengthRatio, carGap, trackBuffer])]

theorem c6_phase1 : ∀ k, k ≤ 13 →
    c6Run k = { c6Init with progress := 1/20 + k * (7/100) } := by
  intro k hk
  induction k with
  | zero =>
    show c6Init = { c6Init with progress := 1/20 + ((0:ℕ):ℚ) * (7/100) }
    have h : (1/20 : ℚ) + ((0:ℕ):ℚ) * (7/100) = c6Init.progress := by
      rw [c6Init_progress]; ring
    rw [h]
  | succ n ih =>
    have hn : n ≤ 13 := Nat.le_of_succ_le hk
    have hrec := ih hn
    have hn12 : (n : ℚ) ≤ 12 := by
      have := Nat.lt_succ_iff.mp (Nat.lt_of_succ_le hk)
      exact_mod_cast this
    have hn0 : (0:ℚ) ≤ (n:ℚ) := Nat.cast_nonneg n
    show trainUpdate (c6Run n) (JsNum.num 2) = _
    rw [hrec]
    rw [trainUpdate_moving_mid _ 2 rfl rfl ?h1 ?h2]
    case h1 =>
      show (1/20 + (n:ℚ) * (7/100)) + c6Init.direction * c6Init.speed * 2 * (1/10) < maxProgress
      norm_num [c6Init, maxProgress, trackBuffer]
      nlinarith [hn12]
    case h2 =>
      show minProgress < (1/20 + (n:ℚ) * (7/100)) + c6Init.direction * c6Init.speed * 2 * (1/10)
      norm_num [c6Init, minProgress, trainSpan, trainLengthRatio, carGap, trackBuffer]
      nlinarith [hn0]
    congr 1
    show (1/20 + (n:ℚ) * (7/100)) + c6Init.direction * c6Init.speed * 2 * (1/10)
        = 1/20 + ((n:ℕ) + 1 : ℕ) * (7/100)
    norm_num [c6Init]
    ring

theorem c6_step14 : c6Run 14 =
    { c6Init with
      progress := maxProgress
      direction := -1
      mode := TrainMode.stopped
      stopTimer := stopDuration } := by
  show trainUpdate (c6Run 13) (JsNum.num 2) = _
  rw [c6_phase1 13 (by norm_num)]
  rw [trainUpdate_moving_top _ 2 rfl rfl ?htop]
  case htop =>
    show (1/20 + ((13:ℕ):ℚ) * (7/100)) + c6Init.direction * c6Init.speed * 2 * (1/10) ≥ maxProgress
    norm_num [c6Init, maxProgress, trackBuffer]

theorem c6_step15 : c6Run 15 =
    { c6Init with
      progress := maxProgress
      direction := -1
      mode := TrainMode.stopped
      stopTimer := 3 } := by
  show trainUpdate (c6Run 14) (JsNum.num 2) = _
  rw [c6_step14, trainUpdate_stopped_tick _ 2 rfl (by norm_num [stopDuration])]
  congr 1
  norm_num [stopDuration]

theorem c6_step16 : c6Run 16 =
    { c6Init with
      progress := maxProgress
      direction := -1
      mode := TrainMode.stopped
      stopTimer := 1 } := by
  show trainUpdate (c6Run 15) (JsNum.num 2) = _
  rw [c6_step15, trainUpdate_stopped_tick _ 2 rfl (by norm_num)]
  congr 1
  norm_num

theorem c6_step17 : c6Run 17 =
    { c6Init with
      progress := maxProgress
      direction := -1
      mode := TrainMode.moving
      stopTimer := -1 } := by
  show trainUpdate (c6Run 16) (JsNum.num 2) = _
  rw [c6_step16, trainUpdate_stopped_release _ 2 rfl (by norm_num)]
  congr 1
  norm_num

theorem c6_step18 : c6Run 18 =
    { c6Init with
      progress := 23/25
      direction := -1
      mode := TrainMode.moving
      stopTimer := -1 } := by
  show trainUpdate (c6Run 17) (JsNum.num 2) = _
  rw [c6_step17]
  rw [trainUpdate_moving_mid _ 2 rfl rfl ?h1 ?h2]
  case h1 =>
    show maxProgress + (-1 : ℚ) * c6Init.speed * 2 * (1/10) < maxProgress
    norm_num [c6Init, maxProgress, trackBuffer]
  case h2 =>
    show minProgress < maxProgress + (-1 : ℚ) * c6Init.speed * 2 * (1/10)
    norm_num [c6Init, minProgress, maxProgress, trainSpan, trainLengthRatio, carGap, trackBuffer]
  congr 1
  show maxProgress + (-1 : ℚ) * c6Init.speed * 2 * (1/10) = 23/25
  norm_num [c6Init, maxProgress, trackBuffer]

/-- C6: a Train with speed 0.35, direction 1, initialProgress 0.05, stepped with
delta = 2s, first reaches the upper bound `1 - TRACK_BUFFER` at step 14, at which
point direction has flipped to -1 and the state is STOPPED with the fixed
countdown 5 > 0; after the countdown elapses (step 17) the state is MOVING with
direction still -1, and the next update strictly decreases progress. -/
theorem train_scenario_c6 :
    (c6Run 14).progress = 1 - trackBuffer ∧
    (c6Run 14).direction = -1 ∧
    (c6Run 14).mode = TrainMode.stopped ∧
    (c6Run 14).stopTimer = 5 ∧
    0 < (c6Run 14).stopTimer ∧
    (∀ k, k < 14 → (c6Run k).progress < 1 - trackBuffer) ∧
    (c6Run 17).mode = TrainMode.moving ∧
    (c6Run 17).direction = -1 ∧
    (c6Run 18).progress < (c6Run 17).progress ∧
    (c6Run 18).direction = -1 := by
  refine ⟨?_, ?_, ?_, ?_, ?_, ?_, ?_, ?_, ?_, ?_⟩
  · rw [c6_step14]
    show maxProgress = 1 - trackBuffer
    rfl
  · rw [c6_step14]
  · rw [c6_step14]
  · rw [c6_step14]
    show stopDuration = 5
    norm_num [stopDuration]
  · rw [c6_step14]
    show (0:ℚ) < stopDuration
    norm_num [stopDuration]
  · intro k hk
    have hk13 : k ≤ 13 := by omega
    rw [c6_phase1 k hk13]
    show 1/20 + (k:ℚ) * (7/100) < 1 - trackBuffer
    have hkq : (k : ℚ) ≤ 13 := by exact_mod_cast hk13
    norm_num [trackBuffer]
    nlinarith [hkq]
  · rw [c6_step17]
  · rw [c6_step17]
  · rw [c6_step18, c6_step17]
    show (23/25 : ℚ) < maxProgress
    norm_num [maxProgress, trackBuffer]
  · rw [c6_step18]

/-- Witness instantiating the universally quantified conjunct of
`train_scenario_c6` at the concrete step k = 0. -/
theorem train_scenario_c6_witness : (c6Run 0).progress < 1 - trackBuffer :=
  train_scenario_c6.2.2.2.2.2.1 0 (by norm_num)

theorem JsNum.add_num (a b : ℚ) : JsNum.add (JsNum.num a) (JsNum.num b) = JsNum.num (a + b) := rfl

theorem JsNum.add_nan_left (b : JsNum) : JsNum.add JsNum.nan b = JsNum.nan := by
  cases b <;> rfl

/-- Discriminates the samples that pass the JS check
`sample && typeof sample.x === 'number'` in Train.updateCarPositions: exactly
the vec samples pass, NaN components included. -/
def isVecSample : CurveSample → Bool
  | CurveSample.vec _ _ _ => true
  | _ => false

/-- A car with a known clean transform, used for the C3 statements. -/
def c3BadCar : CarState :=
  { offset := 0, carType := "HEAD",
    pos := ⟨JsNum.num 0, JsNum.num 0, JsNum.num 0⟩,
    lookTarget := ⟨JsNum.num 0, JsNum.num 0, JsNum.num 1⟩ }

/-- A train whose curve returns a position vector with a NaN x component (and a
well-formed tangent): such a sample is an object with `typeof x === 'number'`,
so it passes the code's checks. -/
def c3BadState : TrainState :=
  { progress := 1/2, speed := 7/20, direction := 1, mode := TrainMode.moving,
    stopTimer := 0, cars := [c3BadCar],
    getPointAt := fun _ => CurveSample.vec JsNum.nan (JsNum.num 0) (JsNum.num 0),
    getTangentAt := fun _ => CurveSample.vec (JsNum.num 0) (JsNum.num 0) (JsNum.num 1),
    hasCurve := true }

/-- C3 counterexample: when getPointAt returns a vector whose x is NaN, the
claimed finite-check does not exist — `typeof NaN === 'number'` passes the
code's object checks, so the NaN IS copied into the car transform and the
transform is NOT left unchanged, refuting the claim at this concrete input. -/
theorem updateCarPositions_nan_copied :
    (updateCarPositions c3BadState).cars.map (fun c => c.pos.x) = [JsNum.nan] ∧
    (updateCarPositions c3BadState).cars ≠ c3BadState.cars := by
  constructor
  · simp [updateCarPositions, c3BadState, carStep]
  · simp [updateCarPositions, c3BadState, carStep, c3BadCar]

/-- C3 amended: Train.updateCarPositions never throws (it is a total function),
returns with no change at all when the curve is missing, and leaves a car's
transform unchanged for the frame whenever the point or tangent sample is
malformed — not an object passing `typeof sample.x === 'number'` (undefined,
null, or an object with a non-numeric x).  A numeric-but-non-finite component,
however, passes those checks (there is no finite check), so only malformed
samples are filtered. -/
theorem updateCarPositions_malformed_skip :
    (∀ s : TrainState, s.hasCurve = false → updateCarPositions s = s) ∧
    (∀ (p : ℚ) (getP getT : ℚ → CurveSample) (car : CarState),
      (isVecSample (getP (clampT (p - car.offset))) = false ∨
       isVecSample (getT (clampT (p - car.offset))) = false) →
      carStep p getP getT car = car) := by
  constructor
  · intro s hs
    simp [updateCarPositions, hs]
  · intro p getP getT car h
    unfold carStep
    simp only
    cases hP : getP (clampT (p - car.offset)) with
    | vec x y z =>
      cases hT : getT (clampT (p - car.offset)) with
      | vec a b c =>
        exfalso
        rw [hP, hT] at h
        simp [isVecSample] at h
      | undef => rfl
      | objNonNum => rfl
    | undef => cases hT : getT (clampT (p - car.offset)) <;> rfl
    | objNonNum => cases hT : getT (clampT (p - car.offset)) <;> rfl

/-- Witness for the amended C3 at a concrete malformed sample (getPointAt
returning undefined) and the concrete car `c3BadCar`. -/
theorem updateCarPositions_malformed_skip_witness :
    carStep (1/2) (fun _ => CurveSample.undef)
      (fun _ => CurveSample.vec (JsNum.num 0) (JsNum.num 0) (JsNum.num 1)) c3BadCar = c3BadCar :=
  updateCarPositions_malformed_skip.2 (1/2) _ _ c3BadCar (Or.inl rfl)

/-- LOOP_SPEED_SCALE from TrafficCar.update and HeroTaxi.update (0.0005). -/
def loopSpeedScale : ℚ := 1/2000

/-- The progress advance of TrafficCar.update / HeroTaxi.update:
`progress += speed * delta * LOOP_SPEED_SCALE; if (progress > 1) progress -= 1`.
Note this is a single conditional subtraction, not a modulo. -/
def loopAdvance (p speed d : ℚ) : ℚ :=
  let p1 := p + speed * d * loopSpeedScale
  if p1 > 1 then p1 - 1 else p1

/-- JavaScript truncation toward zero, used by the JS `%` remainder. -/
def jsTrunc (q : ℚ) : ℤ := if 0 ≤ q then ⌊q⌋ else ⌈q⌉

/-- The JavaScript remainder `a % b`: the remainder with the sign of the
dividend, `a - b * trunc(a / b)`. -/
def jsMod (a b : ℚ) : ℚ := a - b * (jsTrunc (a / b) : ℚ)

/-- The two parameters the follower passes to the closed curve's getPointAt in
one update step: the wrapped progress itself, and the look-ahead parameter
`(progress + 0.005) % 1`. -/
def loopSampleParams (p speed d : ℚ) : ℚ × ℚ :=
  (loopAdvance p speed d, jsMod (loopAdvance p speed d + 1/200) 1)

/-- C5 counterexample: with progress 1/2 ∈ [0,1], speed 60 (the traffic SPEED
value) and the non-negative delta 100, the conditional single subtraction
leaves progress at 5/2, so the first curve-sampling call receives a parameter
greater than 1 — the claimed modulo wrap does not happen. -/
theorem loop_wrap_counterexample :
    (0 : ℚ) ≤ 1/2 ∧ (1/2 : ℚ) ≤ 1 ∧ (0 : ℚ) ≤ 100 ∧
    (loopSampleParams (1/2) 60 100).1 = 5/2 ∧
    ¬ (loopSampleParams (1/2) 60 100).1 ≤ 1 := by
  norm_num [loopSampleParams, loopAdvance, loopSpeedScale]

theorem jsMod_one_of_nonneg (x : ℚ) (hx : 0 ≤ x) : jsMod x 1 = Int.fract x := by
  unfold jsMod jsTrunc
  rw [div_one, if_pos hx, Int.fract]
  ring

/-- C5 amended: for progress in [0,1], non-negative speed and delta, and a
per-step increment `speed * delta * LOOP_SPEED_SCALE` of at most 1, both
curve-sampling parameters stay inside [0,1]: the wrapped progress is in [0,1]
and the look-ahead `(progress + 0.005) % 1` is in [0,1).  For larger
increments the single conditional subtraction is not a modulo and the bound
fails (see the counterexample). -/
theorem loop_wrap_amended (p speed d : ℚ)
    (hp0 : 0 ≤ p) (hp1 : p ≤ 1) (hs : 0 ≤ speed) (hd : 0 ≤ d)
    (hinc : speed * d * loopSpeedScale ≤ 1) :
    (0 ≤ (loopSampleParams p speed d).1 ∧ (loopSampleParams p speed d).1 ≤ 1) ∧
    (0 ≤ (loopSampleParams p speed d).2 ∧ (loopSampleParams p speed d).2 < 1) := by
  have hinc0 : 0 ≤ speed * d * loopSpeedScale := by
    have := mul_nonneg (mul_nonneg hs hd) (by norm_num [loopSpeedScale] : (0:ℚ) ≤ loopSpeedScale)
    exact this
  have hadv : 0 ≤ loopAdvance p speed d ∧ loopAdvance p speed d ≤ 1 := by
    rw [show loopAdvance p speed d =
      if p + speed * d * loopSpeedScale > 1 then p + speed * d * loopSpeedScale - 1
      else p + speed * d * loopSpeedScale from rfl]
    split
    · rename_i hgt
      constructor <;> linarith
    · rename_i hle
      push_neg at hle
      constructor <;> linarith
  refine ⟨hadv, ?_⟩
  have hx : (0:ℚ) ≤ loopAdvance p speed d + 1/200 := by linarith [hadv.1]
  show 0 ≤ jsMod (loopAdvance p speed d + 1/200) 1 ∧
    jsMod (loopAdvance p speed d + 1/200) 1 < 1
  rw [jsMod_one_of_nonneg _ hx]
  exact ⟨Int.fract_nonneg _, Int.fract_lt_one _⟩

/-- Witness for the amended C5 at progress 0, speed 60, delta 1/60 (a 60 fps
frame): the increment is 1/2000 ≤ 1 and both parameters land in range. -/
theorem loop_wrap_amended_witness :
    (0 ≤ (loopSampleParams 0 60 (1/60)).1 ∧ (loopSampleParams 0 60 (1/60)).1 ≤ 1) ∧
    (0 ≤ (loopSampleParams 0 60 (1/60)).2 ∧ (loopSampleParams 0 60 (1/60)).2 < 1) :=
  loop_wrap_amended 0 60 (1/60) (by norm_num) (by norm_num) (by norm_num)
    (by norm_num) (by norm_num [loopSpeedScale])

/-- State of the NewsHelicopter relevant to its update loop: transform of the
group node, body tilt, physics state, rotor animation state and engine-sound
volume, plus the stored landing position. -/
structure HeliState where
  position : ℚ × ℚ × ℚ
  groupRot : ℚ × ℚ × ℚ
  bodyRot : ℚ × ℚ × ℚ
  velocity : ℚ × ℚ × ℚ
  angularVelocity : ℚ
  rotorSpeed : ℚ
  targetRotorSpeed : ℚ
  mainRotorY : ℚ
  tailRotorX : ℚ
  soundVolume : ℚ
  landingPos : ℚ × ℚ × ℚ

/-- NewsHelicopter.update specialized to isManual = false (the PARKED branch
and the rotor/sound code shared by both branches; update never changes
isManual, so a parked helicopter stays in this branch).  The rotor speed ramps
toward the previous frame's target before the branch sets the target to 0; the
parked branch then snaps the group to the landing position, zeroes all
rotation, velocity and angular velocity.  The camera gimbal's look-at aim, a
pure rendering step with no effect on the quantities below, is omitted. -/
def heliUpdateParked (s : HeliState) (d : ℚ) : HeliState :=
  let rs :=
    if s.rotorSpeed < s.targetRotorSpeed then s.rotorSpeed + d * 10
    else if s.rotorSpeed > s.targetRotorSpeed then s.rotorSpeed - d * 5
    else s.rotorSpeed
  { s with
    rotorSpeed := rs
    mainRotorY := s.mainRotorY - rs * d * 20
    tailRotorX := s.tailRotorX - rs * d * 30
    soundVolume := min 1 (rs / 5)
    targetRotorSpeed := 0
    position := s.landingPos
    groupRot := (0, 0, 0)
    bodyRot := (0, 0, 0)
    velocity := (0, 0, 0)
    angularVelocity := 0 }

/-- The NewsHelicopter constructor state for landing pad position p:
group at the landing position, all physics state zero, isManual false. -/
def heliInit (p : ℚ × ℚ × ℚ) : HeliState :=
  { position := p, groupRot := (0, 0, 0), bodyRot := (0, 0, 0),
    velocity := (0, 0, 0), angularVelocity := 0, rotorSpeed := 0,
    targetRotorSpeed := 0, mainRotorY := 0, tailRotorX := 0,
    soundVolume := 0, landingPos := p }

/-- C7: for a parked NewsHelicopter (isManual = false), after any sequence of
update(delta) calls the group position equals the stored landing position, the
velocity is the zero vector, the angular velocity is exactly zero and the
rotor target speed is 0 — every frame, for arbitrary deltas. -/
theorem heli_parked_determinism :
    ∀ (p : ℚ × ℚ × ℚ) (deltas : List ℚ),
      (deltas.foldl heliUpdateParked (heliInit p)).position = p ∧
      (deltas.foldl heliUpdateParked (heliInit p)).velocity = (0, 0, 0) ∧
      (deltas.foldl heliUpdateParked (heliInit p)).angularVelocity = 0 ∧
      (deltas.foldl heliUpdateParked (heliInit p)).targetRotorSpeed = 0 := by
  intro p deltas
  suffices h : ∀ s : HeliState, s.landingPos = p → s.position = p →
      s.velocity = (0, 0, 0) → s.angularVelocity = 0 → s.targetRotorSpeed = 0 →
      (deltas.foldl heliUpdateParked s).position = p ∧
      (deltas.foldl heliUpdateParked s).velocity = (0, 0, 0) ∧
      (deltas.foldl heliUpdateParked s).angularVelocity = 0 ∧
      (deltas.foldl heliUpdateParked s).targetRotorSpeed = 0 by
    exact h (heliInit p) rfl rfl rfl rfl rfl
  induction deltas with
  | nil =>
    intro s h1 h2 h3 h4 h5
    exact ⟨h2, h3, h4, h5⟩
  | cons d ds ih =>
    intro s h1 h2 h3 h4 h5
    show (ds.foldl heliUpdateParked (heliUpdateParked s d)).position = p ∧ _
    apply ih
    · exact h1
    · show s.landingPos = p
      exact h1
    · rfl
    · rfl
    · rfl

/-- The six axis-aligned neighbor keys tested by the boundary-extraction step
of createSteppedLobe (the keys `ix±1,iy,iz`, `ix,iy±1,iz`, `ix,iy,iz±1`, in the
code's order). -/
def neighborKeys (c : ℤ × ℤ × ℤ) : List (ℤ × ℤ × ℤ) :=
  [(c.1 + 1, c.2.1, c.2.2), (c.1 - 1, c.2.1, c.2.2),
   (c.1, c.2.1 + 1, c.2.2), (c.1, c.2.1 - 1, c.2.2),
   (c.1, c.2.1, c.2.2 + 1), (c.1, c.2.1, c.2.2 - 1)]

/-- The boundary-extraction step of createSteppedLobe: keep exactly the grid
cells for which some of the six neighbor keys is absent from the grid map
(`neighbors.some(nKey => !grid.has(nKey))`). -/
def boundaryExtract (grid : Finset (ℤ × ℤ × ℤ)) : Finset (ℤ × ℤ × ℤ) :=
  grid.filter (fun c => ∃ n ∈ neighborKeys c, n ∉ grid)

/-- The grid map of a membership predicate that is true on a fully solid cube
of side N voxels (integer keys 0..N-1 in each axis). -/
def solidCube (N : ℕ) : Finset (ℤ × ℤ × ℤ) :=
  Finset.Icc 0 ((N : ℤ) - 1) ×ˢ (Finset.Icc 0 ((N : ℤ) - 1) ×ˢ Finset.Icc 0 ((N : ℤ) - 1))

/-- The fully interior cells of the solid cube: all coordinates in 1..N-2. -/
def interiorCube (N : ℕ) : Finset (ℤ × ℤ × ℤ) :=
  Finset.Icc 1 ((N : ℤ) - 2) ×ˢ (Finset.Icc 1 ((N : ℤ) - 2) ×ˢ Finset.Icc 1 ((N : ℤ) - 2))

theorem boundaryExtract_solidCube (N : ℕ) :
    boundaryExtract (solidCube N) = solidCube N \ interiorCube N := by
  ext c
  obtain ⟨x, y, z⟩ := c
  simp only [boundaryExtract, neighborKeys, solidCube, interiorCube,
    Finset.mem_filter, Finset.mem_sdiff, Finset.mem_product, Finset.mem_Icc,
    List.mem_cons, List.mem_singleton, List.not_mem_nil, or_false,
    exists_eq_or_imp, exists_eq_left]
  constructor
  · rintro ⟨⟨hx, hy, hz⟩, hnb⟩
    refine ⟨⟨hx, hy, hz⟩, ?_⟩
    rcases hnb with h | h | h | h | h | h <;> · intro hint; push_neg at h; omega
  · rintro ⟨⟨hx, hy, hz⟩, hint⟩
    refine ⟨⟨hx, hy, hz⟩, ?_⟩
    push_neg at hint
    by_cases h1 : x = 0
    · right; left; intro hc; omega
    · by_cases h2 : x = (N : ℤ) - 1
      · left; intro hc; omega
      · by_cases h3 : y = 0
        · right; right; right; left; intro hc; omega
        · by_cases h4 : y = (N : ℤ) - 1
          · right; right; left; intro hc; omega
          · by_cases h5 : z = 0
            · right; right; right; right; right; intro hc; omega
            · by_cases h6 : z = (N : ℤ) - 1
              · right; right; right; right; left; intro hc; omega
              · exfalso; omega

theorem interiorCube_subset (N : ℕ) : interiorCube N ⊆ solidCube N := by
  intro c hc
  obtain ⟨x, y, z⟩ := c
  simp only [solidCube, interiorCube, Finset.mem_product, Finset.mem_Icc] at hc ⊢
  omega

theorem card_solidCube (N : ℕ) : (solidCube N).card = N ^ 3 := by
  simp only [solidCube, Finset.card_product, Int.card_Icc]
  have h : ((N : ℤ) - 1 + 1 - 0).toNat = N := by omega
  rw [h]; ring

theorem card_interiorCube (N : ℕ) : (interiorCube N).card = (N - 2) ^ 3 := by
  simp only [interiorCube, Finset.card_product, Int.card_Icc]
  have h : ((N : ℤ) - 2 + 1 - 1).toNat = N - 2 := by omega
  rw [h]; ring

/-- C2: for a membership predicate solid on a full cube of side N ≥ 3, the
boundary-extraction step keeps exactly the cells with at least one of their 6
axis-aligned neighbors absent from the grid map — 6(N-2)² + 12(N-2) + 8 cells,
the surface of the cube — and drops every fully interior cell. -/
theorem shell_extraction_cube (N : ℕ) (hN : 3 ≤ N) :
    (boundaryExtract (solidCube N)).card = 6 * (N - 2) ^ 2 + 12 * (N - 2) + 8 ∧
    ∀ x y z : ℤ, 1 ≤ x → x ≤ (N : ℤ) - 2 → 1 ≤ y → y ≤ (N : ℤ) - 2 →
      1 ≤ z → z ≤ (N : ℤ) - 2 → (x, y, z) ∉ boundaryExtract (solidCube N) := by
  constructor
  · rw [boundaryExtract_solidCube, Finset.card_sdiff (interiorCube_subset N),
      card_solidCube, card_interiorCube]
    obtain ⟨M, rfl⟩ : ∃ M, N = M + 3 := ⟨N - 3, by omega⟩
    have h2 : M + 3 - 2 = M + 1 := by omega
    rw [h2]
    have hexp : (M + 3) ^ 3 = (M + 1) ^ 3 + (6 * (M + 1) ^ 2 + 12 * (M + 1) + 8) := by ring
    omega
  · intro x y z h1 h2 h3 h4 h5 h6
    rw [boundaryExtract_solidCube]
    simp only [Finset.mem_sdiff, interiorCube, Finset.mem_product, Finset.mem_Icc, not_and,
      not_not]
    intro _
    omega

/-- Witness for C2 at the concrete side N = 3: the hypothesis 3 ≤ 3 holds and
the shell of a 3×3×3 solid cube has 6·1 + 12·1 + 8 = 26 voxels, the interior
cell (1,1,1) being dropped. -/
theorem shell_extraction_cube_witness :
    3 ≤ 3 ∧
    ((boundaryExtract (solidCube 3)).card = 6 * (3 - 2) ^ 2 + 12 * (3 - 2) + 8 ∧
     ∀ x y z : ℤ, 1 ≤ x → x ≤ (3 : ℤ) - 2 → 1 ≤ y → y ≤ (3 : ℤ) - 2 →
       1 ≤ z → z ≤ (3 : ℤ) - 2 → (x, y, z) ∉ boundaryExtract (solidCube 3)) :=
  ⟨by norm_num, shell_extraction_cube 3 (by norm_num)⟩

/-- The voxel edge length used by createSteppedLobe (1.25, exactly
representable in binary floating point, so the JS loop arithmetic is exact). -/
def voxelSize : ℚ := 5/4

/-- JavaScript Math.round: round half toward positive infinity. -/
def jsRound (q : ℚ) : ℤ := ⌊q + 1/2⌋

/-- Iteration count of the loop `for (y = 0; y < h; y += voxelSize)`. -/
def stepsLt (h : ℚ) : ℕ := (⌈h / voxelSize⌉).toNat

/-- Iteration count of the loop `for (x = -w; x <= w; x += voxelSize)`. -/
def stepsLe (w : ℚ) : ℕ := if 0 ≤ w then (⌊2 * w / voxelSize⌋).toNat + 1 else 0

/-- The integer grid key of a cell: `Math.round(coord / voxelSize)` per axis. -/
def lobeCellKey (x y z : ℚ) : ℤ × ℤ × ℤ :=
  (jsRound (x / voxelSize), jsRound (y / voxelSize), jsRound (z / voxelSize))

/-- The sparse grid map built by the fill loops of createSteppedLobe: sweep
y ∈ [0,h), x ∈ [-w,w], z ∈ [-d,d] at step voxelSize; keep cells where the
shape predicate holds on normalized coordinates and the optional exclusion
predicate rejects the world-space position; key by rounded integer indices. -/
def lobeGrid (w h d : ℚ) (shapeFn : ℚ → ℚ → ℚ → Bool)
    (exclusionFn : Option (ℚ → ℚ → ℚ → Bool)) (cx cy cz : ℚ) : Finset (ℤ × ℤ × ℤ) :=
  ((List.range (stepsLt h)).flatMap (fun iy =>
    (List.range (stepsLe w)).flatMap (fun ixx =>
      (List.range (stepsLe d)).flatMap (fun izz =>
        let y : ℚ := iy * voxelSize
        let x : ℚ := -w + ixx * voxelSize
        let z : ℚ := -d + izz * voxelSize
        if shapeFn (x / w) ((y - h/2) / (h/2)) (z / d) then
          match exclusionFn with
          | some ex => if ex (cx + x) (cy + y) (cz + z) then [] else [lobeCellKey x y z]
          | none => [lobeCellKey x y z]
        else [])))).toFinset

/-- An instanced-mesh resource, reduced to the only datum the claims need:
its per-instance count. -/
structure InstancedMeshModel where
  instanceCount : ℕ
  deriving DecidableEq, Repr

/-- The tail of createSteppedLobe: the list of instanced meshes constructed
and attached to the parent.  The code constructs
`new THREE.InstancedMesh(geometry, material, voxels.length)` and calls
`parent.add(mesh)` unconditionally, with no guard on `voxels.length`. -/
def createSteppedLobeMeshes (w h d : ℚ) (shapeFn : ℚ → ℚ → ℚ → Bool)
    (exclusionFn : Option (ℚ → ℚ → ℚ → Bool)) (cx cy cz : ℚ) : List InstancedMeshModel :=
  [⟨(boundaryExtract (lobeGrid w h d shapeFn exclusionFn cx cy cz)).card⟩]

theorem lobeGrid_const_false (w h d cx cy cz : ℚ)
    (exclusionFn : Option (ℚ → ℚ → ℚ → Bool)) :
    lobeGrid w h d (fun _ _ _ => false) exclusionFn cx cy cz = ∅ := by
  simp [lobeGrid]

/-- C4 counterexample: with the shape predicate constantly false (zero
surviving voxels), createSteppedLobe still constructs and attaches an
instanced mesh — with instance count 0 — refuting the claim that no
instanced-mesh resource is created for such a batch. -/
theorem createSteppedLobe_zero_counterexample :
    (boundaryExtract (lobeGrid 4 4 4 (fun _ _ _ => false) none 0 0 0)).card = 0 ∧
    createSteppedLobeMeshes 4 4 4 (fun _ _ _ => false) none 0 0 0 =
      [⟨0⟩] ∧
    createSteppedLobeMeshes 4 4 4 (fun _ _ _ => false) none 0 0 0 ≠
      ([] : List InstancedMeshModel) := by
  have hempty : (boundaryExtract (lobeGrid 4 4 4 (fun _ _ _ => false) none 0 0 0)).card = 0 := by
    rw [lobeGrid_const_false]
    simp [boundaryExtract]
  refine ⟨hempty, ?_, by simp [createSteppedLobeMeshes]⟩
  unfold createSteppedLobeMeshes
  rw [hempty]

/-- C4 amended: whenever the shape and exclusion predicates leave zero
surviving voxels after boundary extraction, createSteppedLobe still creates
exactly one instanced mesh for the batch, with instance count 0, and attaches
it to the parent (there is no zero-voxel guard). -/
theorem createSteppedLobe_always_creates (w h d : ℚ) (shapeFn : ℚ → ℚ → ℚ → Bool)
    (exclusionFn : Option (ℚ → ℚ → ℚ → Bool)) (cx cy cz : ℚ)
    (hzero : (boundaryExtract (lobeGrid w h d shapeFn exclusionFn cx cy cz)).card = 0) :
    createSteppedLobeMeshes w h d shapeFn exclusionFn cx cy cz = [⟨0⟩] := by
  unfold createSteppedLobeMeshes
  rw [hzero]

/-- Witness for the amended C4 at the concrete constantly-false shape
predicate on a 4×4×4 box. -/
theorem createSteppedLobe_always_creates_witness :
    createSteppedLobeMeshes 4 4 4 (fun _ _ _ => false) none 0 0 0 = [⟨0⟩] :=
  createSteppedLobe_always_creates 4 4 4 (fun _ _ _ => false) none 0 0 0
    (by rw [lobeGrid_const_false]; simp [boundaryExtract])

/-- Math.sign on an exact rational. -/
def qSign (q : ℚ) : ℚ := if 0 < q then 1 else if q < 0 then -1 else 0

/-- The elevator state machine's mode: the code stores the strings
'wait' / 'up' / 'down'. -/
inductive ElevMode where
  | wait
  | up
  | down
  deriving DecidableEq, Repr

/-- State of an Elevator: car height y, current target, velocity, mode, dwell
timer, and the rendered car group's height (set to y at the end of every
update). -/
structure ElevState where
  y : ℚ
  targetY : ℚ
  velocity : ℚ
  mode : ElevMode
  waitTime : ℚ
  carGroupY : ℚ
  deriving DecidableEq, Repr

/-- The signed distance `dist = targetY - y` of Elevator.update. -/
def elevDist (s : ElevState) : ℚ := s.targetY - s.y

/-- The travel direction `dir = Math.sign(dist)` of Elevator.update. -/
def elevDir (s : ElevState) : ℚ := qSign (elevDist s)

/-- The velocity after the acceleration step of Elevator.update:
`if (Math.abs(velocity) < MAX_SPEED) velocity += dir * ACCEL * delta`. -/
def elevV1 (s : ElevState) (d : ℚ) : ℚ :=
  if |s.velocity| < 15 then s.velocity + elevDir s * 10 * d else s.velocity

/-- The velocity after the deceleration step of Elevator.update:
`if (Math.abs(dist) < 50) velocity *= 0.95`. -/
def elevV2 (s : ElevState) (d : ℚ) : ℚ :=
  if |elevDist s| < 50 then elevV1 s d * (19/20) else elevV1 s d

/-- The condition under which an update step ends the move: distance below the
epsilon 1, or the updated velocity's sign opposite the travel direction
(overshoot guard). -/
def elevMoveEnds (s : ElevState) (d : ℚ) : Prop :=
  |elevDist s| < 1 ∨ (elevDir s > 0 ∧ elevV2 s d < 0) ∨ (elevDir s < 0 ∧ elevV2 s d > 0)

/-- The state-machine part of Elevator.update: WAIT counts the dwell down and
on expiry picks the far endpoint (up to 415 if y < 100, else down to 10);
a moving mode accelerates toward max speed, decelerates within 50 of the
target, snaps exactly to the target with zero velocity and a fresh randomized
dwell `3 + r*5` when the move ends, and otherwise integrates y. -/
def elevStateMachine (s : ElevState) (d r : ℚ) : ElevState :=
  match s.mode with
  | ElevMode.wait =>
      if s.waitTime - d ≤ 0 then
        if s.y < 100 then
          { s with waitTime := s.waitTime - d, mode := ElevMode.up, targetY := 415 }
        else
          { s with waitTime := s.waitTime - d, mode := ElevMode.down, targetY := 10 }
      else { s with waitTime := s.waitTime - d }
  | _ =>
      if |elevDist s| < 1 ∨ (elevDir s > 0 ∧ elevV2 s d < 0) ∨ (elevDir s < 0 ∧ elevV2 s d > 0) then
        { s with y := s.targetY, velocity := 0, mode := ElevMode.wait, waitTime := 3 + r * 5 }
      else
        { s with velocity := elevV2 s d, y := s.y + elevV2 s d * d }

/-- Elevator.update: run the state machine with the frame's delta and the
`Math.random()` draw r used for a fresh dwell, then copy y onto the rendered
car group. -/
def elevatorUpdate (s : ElevState) (d r : ℚ) : ElevState :=
  let s1 := elevStateMachine s d r
  { s1 with carGroupY := s1.y }

/-- The Elevator constructor state: y = 10, target 415, zero velocity, WAIT
with dwell `Math.random() * 5 + speedOffset` (random draw r, offset off). -/
def elevInit (r off : ℚ) : ElevState :=
  { y := 10, targetY := 415, velocity := 0, mode := ElevMode.wait,
    waitTime := r * 5 + off, carGroupY := 0 }

theorem elevatorUpdate_y (s : ElevState) (d r : ℚ) :
    (elevatorUpdate s d r).y = (elevStateMachine s d r).y := rfl

theorem elevatorUpdate_velocity (s : ElevState) (d r : ℚ) :
    (elevatorUpdate s d r).velocity = (elevStateMachine s d r).velocity := rfl

theorem elevatorUpdate_mode (s : ElevState) (d r : ℚ) :
    (elevatorUpdate s d r).mode = (elevStateMachine s d r).mode := rfl

theorem elevatorUpdate_waitTime (s : ElevState) (d r : ℚ) :
    (elevatorUpdate s d r).waitTime = (elevStateMachine s d r).waitTime := rfl

theorem elevStateMachine_snap (s : ElevState) (d r : ℚ)
    (hm : s.mode = ElevMode.up ∨ s.mode = ElevMode.down) (hends : elevMoveEnds s d) :
    elevStateMachine s d r =
    { s with y := s.targetY, velocity := 0, mode := ElevMode.wait, waitTime := 3 + r * 5 } := by
  unfold elevMoveEnds at hends
  rcases hm with hm | hm <;> · simp only [elevStateMachine, hm]; rw [if_pos hends]

theorem elevStateMachine_go (s : ElevState) (d r : ℚ)
    (hm : s.mode = ElevMode.up ∨ s.mode = ElevMode.down) (hends : ¬ elevMoveEnds s d) :
    elevStateMachine s d r = { s with velocity := elevV2 s d, y := s.y + elevV2 s d * d } := by
  unfold elevMoveEnds at hends
  rcases hm with hm | hm <;> · simp only [elevStateMachine, hm]; rw [if_neg hends]

theorem elevStateMachine_wait_release_up (s : ElevState) (d r : ℚ)
    (hm : s.mode = ElevMode.wait) (hw : s.waitTime - d ≤ 0) (hy : s.y < 100) :
    elevStateMachine s d r =
    { s with waitTime := s.waitTime - d, mode := ElevMode.up, targetY := 415 } := by
  simp only [elevStateMachine, hm]
  rw [if_pos hw, if_pos hy]

theorem elevStateMachine_wait_release_down (s : ElevState) (d r : ℚ)
    (hm : s.mode = ElevMode.wait) (hw : s.waitTime - d ≤ 0) (hy : ¬ s.y < 100) :
    elevStateMachine s d r =
    { s with waitTime := s.waitTime - d, mode := ElevMode.down, targetY := 10 } := by
  simp only [elevStateMachine, hm]
  rw [if_pos hw, if_neg hy]

/-- The C8 simulation: constructor draw 1/5 (dwell 1s), speed offset 0, then
update steps with delta = 63/10 seconds and dwell draw 2/5 each. -/
def elevRun : ℕ → ElevState
  | 0 => elevInit (1/5) 0
  | n + 1 => elevatorUpdate (elevRun n) (63/10) (2/5)

theorem elevRun1 : elevRun 1 = ⟨10, 415, 0, ElevMode.up, -53/10, 10⟩ := by
  show elevatorUpdate (elevRun 0) (63/10) (2/5) = _
  rw [show elevRun 0 = elevInit (1/5) 0 from rfl]
  unfold elevatorUpdate
  rw [elevStateMachine_wait_release_up _ (63/10) (2/5) rfl (by norm_num [elevInit])
    (by norm_num [elevInit])]
  norm_num [elevInit]

theorem elevRun2 : elevRun 2 = ⟨4069/10, 415, 63, ElevMode.up, -53/10, 4069/10⟩ := by
  show elevatorUpdate (elevRun 1) (63/10) (2/5) = _
  rw [elevRun1]
  unfold elevatorUpdate
  rw [elevStateMachine_go _ (63/10) (2/5) (Or.inl rfl)
    (by norm_num [elevMoveEnds, elevDist, elevDir, elevV2, elevV1, qSign, abs_of_pos])]
  norm_num [elevV2, elevV1, elevDir, elevDist, qSign, abs_of_pos]

theorem elevRun3 : elevRun 3 = ⟨156791/200, 415, 1197/20, ElevMode.up, -53/10, 156791/200⟩ := by
  show elevatorUpdate (elevRun 2) (63/10) (2/5) = _
  rw [elevRun2]
  unfold elevatorUpdate
  rw [elevStateMachine_go _ (63/10) (2/5) (Or.inl rfl)
    (by norm_num [elevMoveEnds, elevDist, elevDir, elevV2, elevV1, qSign, abs_of_pos])]
  norm_num [elevV2, elevV1, elevDir, elevDist, qSign, abs_of_pos]

theorem elevRun4 : elevRun 4 = ⟨415, 415, 0, ElevMode.wait, 5, 415⟩ := by
  show elevatorUpdate (elevRun 3) (63/10) (2/5) = _
  rw [elevRun3]
  unfold elevatorUpdate
  rw [elevStateMachine_snap _ (63/10) (2/5) (Or.inl rfl)
    (by norm_num [elevMoveEnds, elevDist, elevDir, elevV2, elevV1, qSign, abs_of_pos])]
  norm_num

theorem elevRun5 : elevRun 5 = ⟨415, 10, 0, ElevMode.down, -13/10, 415⟩ := by
  show elevatorUpdate (elevRun 4) (63/10) (2/5) = _
  rw [elevRun4]
  unfold elevatorUpdate
  rw [elevStateMachine_wait_release_down _ (63/10) (2/5) rfl (by norm_num) (by norm_num)]
  norm_num

theorem elevRun6 : elevRun 6 = ⟨181/10, 10, -63, ElevMode.down, -13/10, 181/10⟩ := by
  show elevatorUpdate (elevRun 5) (63/10) (2/5) = _
  rw [elevRun5]
  unfold elevatorUpdate
  rw [elevStateMachine_go _ (63/10) (2/5) (Or.inr rfl)
    (by norm_num [elevMoveEnds, elevDist, elevDir, elevV2, elevV1, qSign, abs_of_pos])]
  norm_num [elevV2, elevV1, elevDir, elevDist, qSign, abs_of_pos]

theorem elevRun7 : elevRun 7 = ⟨-71791/200, 10, -1197/20, ElevMode.down, -13/10, -71791/200⟩ := by
  show elevatorUpdate (elevRun 6) (63/10) (2/5) = _
  rw [elevRun6]
  unfold elevatorUpdate
  rw [elevStateMachine_go _ (63/10) (2/5) (Or.inr rfl)
    (by norm_num [elevMoveEnds, elevDist, elevDir, elevV2, elevV1, qSign, abs_of_pos])]
  norm_num [elevV2, elevV1, elevDir, elevDist, qSign, abs_of_pos]

theorem elevRun8 : elevRun 8 = ⟨10, 10, 0, ElevMode.wait, 5, 10⟩ := by
  show elevatorUpdate (elevRun 7) (63/10) (2/5) = _
  rw [elevRun7]
  unfold elevatorUpdate
  rw [elevStateMachine_snap _ (63/10) (2/5) (Or.inr rfl)
    (by norm_num [elevMoveEnds, elevDist, elevDir, elevV2, elevV1, qSign, abs_of_pos])]
  norm_num

/-- C8: whenever an update step ends a move (distance below the epsilon 1, or
the updated velocity's sign opposite the travel direction), the elevator's y is
set exactly to the target endpoint (415 when moving up, 10 when moving down),
velocity to zero, and the mode to WAIT with a strictly positive randomized
dwell `3 + r·5` (0 ≤ r < 1); and a concrete full cycle from the bottom WAIT
state reaches the top endpoint exactly (step 4) and returns exactly to the
bottom endpoint (step 8). -/
theorem elevator_round_trip :
    (∀ (s : ElevState) (d r : ℚ), 0 ≤ r → r < 1 →
      (s.mode = ElevMode.up ∧ s.targetY = 415) ∨ (s.mode = ElevMode.down ∧ s.targetY = 10) →
      elevMoveEnds s d →
      (elevatorUpdate s d r).y = s.targetY ∧
      (s.mode = ElevMode.up → (elevatorUpdate s d r).y = 415) ∧
      (s.mode = ElevMode.down → (elevatorUpdate s d r).y = 10) ∧
      (elevatorUpdate s d r).velocity = 0 ∧
      (elevatorUpdate s d r).mode = ElevMode.wait ∧
      0 < (elevatorUpdate s d r).waitTime) ∧
    ((elevRun 4).y = 415 ∧ (elevRun 4).velocity = 0 ∧ (elevRun 4).mode = ElevMode.wait ∧
     0 < (elevRun 4).waitTime ∧
     (elevRun 8).y = 10 ∧ (elevRun 8).velocity = 0 ∧ (elevRun 8).mode = ElevMode.wait) := by
  constructor
  · intro s d r hr0 hr1 hmode hends
    have hm : s.mode = ElevMode.up ∨ s.mode = ElevMode.down := by
      rcases hmode with ⟨h, _⟩ | ⟨h, _⟩
      · exact Or.inl h
      · exact Or.inr h
    have hsnap := elevStateMachine_snap s d r hm hends
    rw [elevatorUpdate_y, elevatorUpdate_velocity, elevatorUpdate_mode,
      elevatorUpdate_waitTime, hsnap]
    refine ⟨rfl, ?_, ?_, rfl, rfl, by simp only; linarith⟩
    · intro hup
      show s.targetY = 415
      rcases hmode with ⟨_, ht⟩ | ⟨hd2, _⟩
      · exact ht
      · rw [hd2] at hup; exact absurd hup (by simp)
    · intro hdn
      show s.targetY = 10
      rcases hmode with ⟨hu2, _⟩ | ⟨_, ht⟩
      · rw [hu2] at hdn; exact absurd hdn (by simp)
      · exact ht
  · rw [elevRun4, elevRun8]
    norm_num

/-- Witness for C8's universally quantified part at the concrete state one
step before the top snap of the simulated cycle (the elevRun 3 state), with
delta 63/10 and dwell draw 2/5. -/
theorem elevator_round_trip_witness :
    (elevatorUpdate ⟨156791/200, 415, 1197/20, ElevMode.up, -53/10, 156791/200⟩
        (63/10) (2/5)).y = 415 ∧
    (elevatorUpdate ⟨156791/200, 415, 1197/20, ElevMode.up, -53/10, 156791/200⟩
        (63/10) (2/5)).velocity = 0 ∧
    (elevatorUpdate ⟨156791/200, 415, 1197/20, ElevMode.up, -53/10, 156791/200⟩
        (63/10) (2/5)).mode = ElevMode.wait ∧
    0 < (elevatorUpdate ⟨156791/200, 415, 1197/20, ElevMode.up, -53/10, 156791/200⟩
        (63/10) (2/5)).waitTime := by
  have h := (elevator_round_trip.1 ⟨156791/200, 415, 1197/20, ElevMode.up, -53/10, 156791/200⟩
    (63/10) (2/5) (by norm_num) (by norm_num) (Or.inl ⟨rfl, rfl⟩)
    (by norm_num [elevMoveEnds, elevDist, elevDir, elevV2, elevV1, qSign, abs_of_pos]))
  exact ⟨h.2.1 rfl, h.2.2.2.1, h.2.2.2.2.1, h.2.2.2.2.2⟩

/-- A Space Needle voxel as pushed by the generator's `add` helper: coordinates
rounded with Math.round, plus a color.  The helper also routes the voxel into
one of four lists by a type tag; the routing does not change the voxel and is
not modelled. -/
structure NeedleVoxel where
  x : ℤ
  y : ℤ
  z : ℤ
  color : String
  deriving DecidableEq, Repr

/-- rotatePoint(x, z, angleDeg) from the Space Needle module: convert degrees
to radians and apply the 2D rotation about the vertical axis. -/
noncomputable def rotatePoint (x z angleDeg : ℝ) : ℝ × ℝ :=
  let rad := angleDeg * (Real.pi / 180)
  let c := Real.cos rad
  let s := Real.sin rad
  (x * c - z * s, x * s + z * c)

/-- JS Math.round on a real: round half toward positive infinity. -/
noncomputable def jsRoundR (q : ℝ) : ℤ := ⌊q + 1/2⌋

/-- The generator's `add(x, y, z, color)` helper: push the voxel with each
coordinate rounded. -/
noncomputable def needleAdd (x y z : ℝ) (color : String) : NeedleVoxel :=
  ⟨jsRoundR x, jsRoundR y, jsRoundR z, color⟩

/-- addTri: for each angle in [0, 120, 240], rotate (x,z) by it and add the
rotated point at height y. -/
noncomputable def addTri (x y z : ℝ) (color : String) : List NeedleVoxel :=
  ([0, 120, 240] : List ℝ).map (fun angle =>
    needleAdd (rotatePoint x z angle).1 y (rotatePoint x z angle).2 color)

/-- addHex: for i = 0..5, rotate (x,z) by i·60 degrees and add the rotated
point at height y. -/
noncomputable def addHex (x y z : ℝ) (color : String) : List NeedleVoxel :=
  (List.range 6).map (fun i =>
    needleAdd (rotatePoint x z ((i : ℝ) * 60)).1 y (rotatePoint x z ((i : ℝ) * 60)).2 color)

/-- C9: rotatePoint computes the standard 2D rotation about the vertical axis —
identifying the plane with ℂ, it is multiplication by exp(i·a·π/180), i.e.
x' = x·cos a − z·sin a, z' = x·sin a + z·cos a with a in radians; addTri emits
exactly the 3 voxels at the point rotated by 0°, 120° and 240°, and addHex
exactly the 6 voxels at the rotations by 0°, 60°, 120°, 180°, 240°, 300°. -/
theorem rotate_symmetry_helpers :
    (∀ x z a : ℝ, ((rotatePoint x z a).1 : ℂ) + (rotatePoint x z a).2 * Complex.I =
        ((x : ℂ) + (z : ℂ) * Complex.I) *
          Complex.exp (((a * (Real.pi / 180) : ℝ) : ℂ) * Complex.I)) ∧
    (∀ (x y z : ℝ) (c : String), addTri x y z c =
        [needleAdd (rotatePoint x z 0).1 y (rotatePoint x z 0).2 c,
         needleAdd (rotatePoint x z 120).1 y (rotatePoint x z 120).2 c,
         needleAdd (rotatePoint x z 240).1 y (rotatePoint x z 240).2 c]) ∧
    (∀ (x y z : ℝ) (c : String), addHex x y z c =
        [needleAdd (rotatePoint x z 0).1 y (rotatePoint x z 0).2 c,
         needleAdd (rotatePoint x z 60).1 y (rotatePoint x z 60).2 c,
         needleAdd (rotatePoint x z 120).1 y (rotatePoint x z 120).2 c,
         needleAdd (rotatePoint x z 180).1 y (rotatePoint x z 180).2 c,
         needleAdd (rotatePoint x z 240).1 y (rotatePoint x z 240).2 c,
         needleAdd (rotatePoint x z 300).1 y (rotatePoint x z 300).2 c]) := by
  refine ⟨?_, ?_, ?_⟩
  · intro x z a
    show ((x * Real.cos (a * (Real.pi / 180)) - z * Real.sin (a * (Real.pi / 180)) : ℝ) : ℂ) +
        ((x * Real.sin (a * (Real.pi / 180)) + z * Real.cos (a * (Real.pi / 180)) : ℝ) : ℂ) *
          Complex.I = _
    rw [Complex.exp_mul_I, ← Complex.ofReal_cos, ← Complex.ofReal_sin]
    push_cast
    ring_nf
    rw [Complex.I_sq]
    ring
  · intro x y z c
    rfl
  · intro x y z c
    unfold addHex
    rw [show List.range 6 = [0, 1, 2, 3, 4, 5] from rfl]
    norm_num
